import Mathlib

/-!
Verification of the adaptive candlestick ETL pipeline of the
`static_worldcup` repository (`fastapi_server/scripts/kalshi.py` and the
cache-backed history endpoint of `fastapi_server/main.py`).

The Python code is shallowly embedded: each dataframe transform is modelled
as a pure per-record function (the pandas operations used are all row-wise),
times are rationals measured in seconds, prices are rationals measured in
cents, nullable columns are `Option` values, and the SQL persistence layer is
modelled as explicit list-valued tables with transactional state.
-/

namespace StaticWorldcup

/-! ## Granularity Selector (`add_time_features`, `add_phase_and_granularity`,
`add_span_capped_granularity`, `build_times_df`)

Times are rationals in seconds; one day is 86400 seconds. -/

/-- Source: `Series.clip(lower=0, upper=1)` on a scalar. -/
def clip01 (x : ℚ) : ℚ := max 0 (min x 1)

/-- Source: `add_time_features`: `lifecycle_pct = ((now - open) / (close - open)).clip(0, 1)`. -/
def lifecycle_pct (open_time close_time current_time : ℚ) : ℚ :=
  clip01 ((current_time - open_time) / (close_time - open_time))

/-- Source: `add_phase_and_granularity`: `np.select` over `lifecycle_pct`.  The three
conditions are tried in order (`< 0.6` early, `< 0.9` middle, `≥ 0.9` late)
with default `late`, which collapses to nested conditionals on a total order. -/
def phase (pct : ℚ) : String :=
  if pct < 0.6 then "early" else if pct < 0.9 then "middle" else "late"

/-- Source: `add_phase_and_granularity`: the `phase_to_gran` mapping
`early ↦ 1440, middle ↦ 60, late ↦ 1`. -/
def phase_to_gran (p : String) : ℕ :=
  if p = "early" then 1440 else if p = "middle" then 60 else 1

/-- Source: `add_phase_and_granularity.gran_from_ttc`: time-to-close override
(`ttc` in seconds; negative `ttc` falls through to the 1-minute branch). -/
def gran_from_ttc (ttc : ℚ) : ℕ :=
  if ttc > 7 * 86400 then 1440 else if ttc > 86400 then 60 else 1

/-- Source: `add_phase_and_granularity`: `granularity_final` is the row-wise `min` of
the phase-based and the time-to-close-based granularity. -/
def granularity_final (pct ttc : ℚ) : ℕ :=
  min (phase_to_gran (phase pct)) (gran_from_ttc ttc)

/-- Source: `add_span_capped_granularity`: `days_since_open = time_since_open / 1 day`. -/
def days_since_open (open_time current_time : ℚ) : ℚ :=
  (current_time - open_time) / 86400

/-- Source: `add_span_capped_granularity`: starting from `granularity_final`, first
widen 1-minute to 60 when `days_since_open > max_days_minute`, then widen the
(possibly already widened) 60 to 1440 when `days_since_open > max_days_hour`.
The two `.loc` assignments are sequential, so the second condition sees the
result of the first. -/
def granularity_span_cap (max_days_minute max_days_hour : ℚ) (g : ℕ)
    (days : ℚ) : ℕ :=
  let g1 := if g = 1 ∧ days > max_days_minute then 60 else g
  if g1 = 60 ∧ days > max_days_hour then 1440 else g1

/-- Source: `build_times_df`: the per-market granularity produced by chaining
`add_time_features`, `add_phase_and_granularity` and
`add_span_capped_granularity(max_days_minute=3, max_days_hour=7)`. -/
def build_times_granularity (open_time close_time current_time : ℚ) : ℕ :=
  granularity_span_cap 3 7
    (granularity_final (lifecycle_pct open_time close_time current_time)
      (close_time - current_time))
    (days_since_open open_time current_time)

/-- The Granularity Selector is specified to emit only these three values. -/
def ValidGran (g : ℕ) : Prop := g = 1 ∨ g = 60 ∨ g = 1440

/-! ## Candlestick Normalizer (`minutes_to_df`) -/

/-- A nested `yes_bid` / `yes_ask` sub-object of a raw candlestick record;
every leaf may be absent.  (`open` is a Lean keyword, hence `open_`.) -/
structure SideQuote where
  open_ : Option ℚ := none
  high : Option ℚ := none
  low : Option ℚ := none
  close : Option ℚ := none
deriving DecidableEq

/-- The nested `price` sub-object (carries `mean` and `previous` as well). -/
structure PriceQuote where
  open_ : Option ℚ := none
  high : Option ℚ := none
  low : Option ℚ := none
  close : Option ℚ := none
  mean : Option ℚ := none
  previous : Option ℚ := none
deriving DecidableEq

/-- One raw candlestick period as returned by the upstream API.  Each nested
sub-object may be missing entirely (`r.get("price") or {}`);
`end_period_ts` is always present on upstream records. -/
structure RawPeriod where
  end_period_ts : ℤ
  open_interest : Option ℚ := none
  volume : Option ℚ := none
  price : Option PriceQuote := none
  yes_bid : Option SideQuote := none
  yes_ask : Option SideQuote := none
deriving DecidableEq

/-- One flat normalized row of `minutes_to_df`.  The timezone renderings of
`end_period_ts` (`end_period_utc`, `end_period_local`) are bijective images of
the epoch timestamp and are omitted; the remaining dollar columns are the
same `x / 100` map shown here for the two derived metrics. -/
structure NormRow where
  end_period_ts : ℤ
  open_interest : Option ℚ
  volume : Option ℚ
  price_open : Option ℚ
  price_high : Option ℚ
  price_low : Option ℚ
  price_close : Option ℚ
  price_mean : Option ℚ
  price_previous : Option ℚ
  yes_bid_open : Option ℚ
  yes_bid_high : Option ℚ
  yes_bid_low : Option ℚ
  yes_bid_close : Option ℚ
  yes_ask_open : Option ℚ
  yes_ask_high : Option ℚ
  yes_ask_low : Option ℚ
  yes_ask_close : Option ℚ
  mid_cents : Option ℚ
  spread_cents : Option ℚ
  mid_dollars : Option ℚ
  spread_dollars : Option ℚ
deriving DecidableEq

/-- Source: `np.where(bid.notna() & ask.notna(), (bid + ask) / 2.0, np.nan)`. -/
def mid_from (bid ask : Option ℚ) : Option ℚ :=
  match bid, ask with
  | some b, some a => some ((b + a) / 2)
  | _, _ => none

/-- Source: `np.where(bid.notna() & ask.notna(), ask - bid, np.nan)`. -/
def spread_from (bid ask : Option ℚ) : Option ℚ :=
  match bid, ask with
  | some b, some a => some (a - b)
  | _, _ => none

/-- Source: `to_dollars = lambda x: x / 100.0 if pd.notna(x) else np.nan`. -/
def to_dollars (x : Option ℚ) : Option ℚ := x.map (fun v => v / 100)

/-- The per-record flattening step of `minutes_to_df`: extract each nested
field (missing sub-objects behave as empty dicts), then derive
`mid_cents` / `spread_cents` and their dollar versions. -/
def normalize_record (r : RawPeriod) : NormRow :=
  let price := r.price.getD {}
  let yes_bid := r.yes_bid.getD {}
  let yes_ask := r.yes_ask.getD {}
  { end_period_ts := r.end_period_ts
    open_interest := r.open_interest
    volume := r.volume
    price_open := price.open_
    price_high := price.high
    price_low := price.low
    price_close := price.close
    price_mean := price.mean
    price_previous := price.previous
    yes_bid_open := yes_bid.open_
    yes_bid_high := yes_bid.high
    yes_bid_low := yes_bid.low
    yes_bid_close := yes_bid.close
    yes_ask_open := yes_ask.open_
    yes_ask_high := yes_ask.high
    yes_ask_low := yes_ask.low
    yes_ask_close := yes_ask.close
    mid_cents := mid_from yes_bid.close yes_ask.close
    spread_cents := spread_from yes_bid.close yes_ask.close
    mid_dollars := to_dollars (mid_from yes_bid.close yes_ask.close)
    spread_dollars := to_dollars (spread_from yes_bid.close yes_ask.close) }

/-- Source: `df.sort_values("end_period_ts")` comparison. -/
def byEndTs (a b : NormRow) : Prop := a.end_period_ts ≤ b.end_period_ts

instance : DecidableRel byEndTs := fun a b => Int.decLe a.end_period_ts b.end_period_ts

/-- Source: `minutes_to_df`: flatten every record, then sort ascending by
`end_period_ts`. -/
def minutes_to_df (records : List RawPeriod) : List NormRow :=
  List.insertionSort byEndTs (records.map normalize_record)

/-! ## Rate-limited API client (`KalshiClient.get_event`,
`KalshiClient.get_candlesticks`)

An HTTP exchange is modelled by a server strategy `ℕ → KalshiResponse α`
giving the response to the n-th request the client issues on that URL. -/

/-- The outcome of one HTTP GET: success payload, a 429 throttling status, or
any other non-2xx status (which `raise_for_status` turns into an exception). -/
inductive KalshiResponse (α : Type) where
  | ok (payload : α)
  | status429
  | httpError (code : ℕ)

/-- The observable effect of one client call: its result (`Except` carries the
HTTP status an exception reports) together with the number of GET requests
issued and the backoff sleeps (in seconds) performed. -/
structure FetchOutcome (α : Type) where
  result : Except ℕ α
  attempts : ℕ
  sleeps : List ℕ

/-- Source: `KalshiClient.get_event` (scripts/kalshi.py): a single
`session.get` followed by `response.raise_for_status()`.  There is no retry
loop: any non-2xx status — a 429 included — raises on the first attempt, and
no sleep is ever performed. -/
def get_event {α : Type} (server : ℕ → KalshiResponse α) : FetchOutcome α :=
  match server 0 with
  | .ok p => ⟨.ok p, 1, []⟩
  | .status429 => ⟨.error 429, 1, []⟩
  | .httpError c => ⟨.error c, 1, []⟩

/-- The observable effect of `KalshiClient.get_candlesticks`: the result,
the backoff sleeps performed, and whether the "retries exhausted" warning was
printed. -/
structure CandleFetch where
  result : Except ℕ (List RawPeriod)
  sleeps : List ℕ
  exhausted_warning : Bool

/-- The retry loop of `get_candlesticks`, by remaining attempts: on a 429,
sleep `delay` seconds and retry with `min (delay * 2) 120`; on any other
non-2xx, raise; on success return the payload.  When the `for` loop runs out
of attempts, print the exhaustion warning and return `{"candlesticks": []}`. -/
def get_candlesticks_go (server : ℕ → KalshiResponse (List RawPeriod)) :
    ℕ → ℕ → ℕ → List ℕ → CandleFetch
  | 0, _, _, acc => ⟨.ok [], acc.reverse, true⟩
  | fuel + 1, idx, delay, acc =>
    match server idx with
    | .status429 => get_candlesticks_go server fuel (idx + 1) (min (delay * 2) 120) (delay :: acc)
    | .ok p => ⟨.ok p, acc.reverse, false⟩
    | .httpError c => ⟨.error c, acc.reverse, false⟩

/-- Source: `KalshiClient.get_candlesticks`: `delay_seconds = 5`, `max_attempts = 10`. -/
def get_candlesticks (server : ℕ → KalshiResponse (List RawPeriod)) : CandleFetch :=
  get_candlesticks_go server 10 0 5 []

/-! ## Per-market fetch loop (`fetch_all_candlesticks`) -/

/-- One row of `times_df` as consumed by `fetch_all_candlesticks`. -/
structure MarketTimes where
  team_name : String
  event_title : String := ""
  ticker : String
  event_ticker : String := ""
  series_ticker : String := ""
  start_ts : ℤ := 0
  current_ts : ℤ := 0
  granularity_span_cap : ℕ := 1440

/-- A normalized row tagged with its market's identifying columns, as
produced by the per-market loop of `fetch_all_candlesticks`. -/
structure TaggedRow where
  team_name : String
  event_title : String := ""
  event_ticker : String := ""
  ticker : String := ""
  series_ticker : String := ""
  row : NormRow

/-- Attach the market columns to every normalized row (`dfa["team_name"] = ...`). -/
def tag_market (m : MarketTimes) (rows : List NormRow) : List TaggedRow :=
  rows.map fun nr =>
    { team_name := m.team_name
      event_title := m.event_title
      event_ticker := m.event_ticker
      ticker := m.ticker
      series_ticker := m.series_ticker
      row := nr }

/-- Source: `fetch_all_candlesticks`: process markets one at a time; an empty
candlestick list (`if not candlesticks: continue`) skips the market and the
loop carries on; an uncaught HTTP exception from `get_candlesticks` aborts
the whole call.  (`if dfa.empty: continue` is subsumed: `minutes_to_df` is
empty exactly when its input record list is.)  The server strategy is keyed
by the market ticker of the URL being fetched. -/
def fetch_all_candlesticks (server : String → ℕ → KalshiResponse (List RawPeriod)) :
    List MarketTimes → Except ℕ (List TaggedRow)
  | [] => .ok []
  | m :: rest =>
    match (get_candlesticks (server m.ticker)).result with
    | .error c => .error c
    | .ok cs =>
      match fetch_all_candlesticks server rest with
      | .error c => .error c
      | .ok rows =>
        if cs.isEmpty then .ok rows
        else .ok (tag_market m (minutes_to_df cs) ++ rows)

/-! ## Ranking Aggregator (`build_ranking`) -/

/-- Source: `groupby(["team_name"])` group keys: the distinct team names, sorted
ascending (pandas sorts group keys by default). -/
def groupNames (df : List TaggedRow) : List String :=
  List.insertionSort (fun a b => a ≤ b) ((df.map TaggedRow.team_name).dedup)

/-- The non-null `yes_bid_open` values of one team's rows. -/
def groupBidOpens (df : List TaggedRow) (name : String) : List ℚ :=
  (df.filter (fun r => r.team_name == name)).filterMap (fun r => r.row.yes_bid_open)

/-- The pandas `mean` aggregation: the arithmetic mean of the non-null
values, and NaN (here `none`) when there are none. -/
def nanMean (xs : List ℚ) : Option ℚ :=
  if xs.length = 0 then none else some (xs.sum / xs.length)

/-- Source: `Series.round(2)`: round to two decimal places. -/
def round2 (q : ℚ) : ℚ := ((round (q * 100) : ℤ) : ℚ) / 100

/-- Source: `agg(avg_chance=("yes_bid_open", "mean"))` followed by `.round(2)`,
null-propagating. -/
def avg_chance (df : List TaggedRow) (name : String) : Option ℚ :=
  (nanMean (groupBidOpens df name)).map round2

/-- The `sort_values(by="avg_chance", ascending=False)` comparison: larger
averages first, NaN (`none`) sorted last (`na_position="last"`). -/
def avgDominates (a b : Option ℚ) : Bool :=
  match a, b with
  | some x, some y => decide (y ≤ x)
  | some _, none => true
  | none, none => true
  | none, some _ => false

/-- The descending-average order on `(team_name, avg_chance)` group rows. -/
def rankOrder (g1 g2 : String × Option ℚ) : Prop :=
  avgDominates g1.2 g2.2 = true

instance : DecidableRel rankOrder := fun g1 g2 =>
  instDecidableEqBool (avgDominates g1.2 g2.2) true

/-- One output row of `build_ranking`. -/
structure RankingEntry where
  team_name : String
  avg_chance : Option ℚ
  rank : ℕ
deriving DecidableEq

/-- Source: `.reset_index().rename(columns={"index": "rank"}).assign(rank=rank+1)`:
rank is one plus the position in the sorted order. -/
def assignRanks : ℕ → List (String × Option ℚ) → List RankingEntry
  | _, [] => []
  | i, g :: gs => ⟨g.1, g.2, i⟩ :: assignRanks (i + 1) gs

/-- Source: `build_ranking`: empty in, empty out; otherwise group by team name,
aggregate the null-safe mean of `yes_bid_open` rounded to 2 decimals, sort
descending by that mean, and assign 1-based ranks by position. -/
def build_ranking (df : List TaggedRow) : List RankingEntry :=
  if df.isEmpty then []
  else
    assignRanks 1
      (List.insertionSort rankOrder
        ((groupNames df).map (fun n => (n, avg_chance df n))))

/-! ## Persistence: time-series upsert (`save_chances`,
`KalshiTeamChance`)

The `kalshi_team_chances` table is modelled as a list of rows; the
`UniqueConstraint("market_ticker", "end_period_ts")` of `KalshiTeamChance`
together with `ON CONFLICT (market_ticker, end_period_ts) DO NOTHING` makes
each insert a no-op when the natural key is already present. -/

/-- One row of `kalshi_team_chances` (the column list of the `INSERT` in
`save_chances`); timestamps are epoch seconds. -/
structure ChanceRow where
  team_id : Option ℤ := none
  team_name : String := ""
  event_ticker : String := ""
  series_ticker : Option String := none
  market_ticker : String
  end_period_ts : ℤ
  end_period_utc : ℤ := 0
  yes_bid_open : Option ℚ := none
  yes_ask_close : Option ℚ := none
  mid_cents : Option ℚ := none
  volume : Option ℚ := none
  open_interest : Option ℚ := none
  created_at : ℤ := 0
deriving DecidableEq

/-- The natural key `(market_ticker, end_period_ts)` occurs in the table. -/
def keyMem (table : List ChanceRow) (mt : String) (ts : ℤ) : Prop :=
  ∃ x ∈ table, x.market_ticker = mt ∧ x.end_period_ts = ts

instance (table : List ChanceRow) (mt : String) (ts : ℤ) :
    Decidable (keyMem table mt ts) := by
  unfold keyMem; infer_instance

/-- One `INSERT ... ON CONFLICT (market_ticker, end_period_ts) DO NOTHING`:
append the row unless its natural key is already present. -/
def insert_chance (table : List ChanceRow) (r : ChanceRow) : List ChanceRow :=
  if keyMem table r.market_ticker r.end_period_ts then table else table ++ [r]

/-- Source: `save_chances`: execute the conflict-ignoring insert for every payload
row in order (the early return on an empty dataframe coincides with folding
over an empty list). -/
def save_chances (table : List ChanceRow) (rows : List ChanceRow) : List ChanceRow :=
  rows.foldl insert_chance table

/-! ## Persistence: ranking snapshot replace (`save_rankings`,
`KalshiTeamRanking`)

`save_rankings` runs `DELETE FROM kalshi_team_rankings WHERE event_ticker =
:event_ticker`, then `session.add_all(rows)`, then a single
`session.commit()`.  Under SQLModel/SQLAlchemy `Session` semantics both
statements execute inside the session's open transaction and only `commit`
publishes them, so the database is modelled as a committed table plus an
optional in-flight working copy. -/

/-- One row of `kalshi_team_rankings`. -/
structure RankRow where
  team_id : Option ℤ := none
  team_name : String := ""
  event_ticker : String
  series_ticker : Option String := none
  avg_yes_bid_open : Option ℚ := none
  rank : ℕ := 0
  as_of : ℤ := 0
deriving DecidableEq

/-- The rankings table: the committed rows, plus the working copy of an open
transaction when one is in flight. -/
structure RankDB where
  committed : List RankRow
  pending : Option (List RankRow)
deriving DecidableEq

/-- The rows a statement inside the session sees (the open transaction's
working copy, or the committed rows when no transaction is open yet). -/
def txn_working (db : RankDB) : List RankRow :=
  db.pending.getD db.committed

/-- Source: `session.execute(DELETE ... WHERE event_ticker = :event_ticker)` with
the already-uppercased ticker: removes the event's rows from the working
copy only. -/
def exec_delete_event (db : RankDB) (event_ticker_uc : String) : RankDB :=
  { db with pending := some ((txn_working db).filter (fun r => r.event_ticker != event_ticker_uc)) }

/-- Source: `session.add_all(rows)`: append the new rows to the working copy only. -/
def add_all (db : RankDB) (rows : List RankRow) : RankDB :=
  { db with pending := some (txn_working db ++ rows) }

/-- Source: `session.commit()`: publish the working copy. -/
def txn_commit (db : RankDB) : RankDB :=
  { committed := txn_working db, pending := none }

/-- A failure before `commit` rolls the transaction back: the working copy
is discarded and the committed rows are untouched. -/
def txn_rollback (db : RankDB) : RankDB :=
  { db with pending := none }

/-- Source: `save_rankings` when every statement succeeds: early return on an empty
ranking, otherwise delete-for-event, insert, commit. -/
def save_rankings_ok (db : RankDB) (ranking : List RankRow) (event_ticker : String) : RankDB :=
  if ranking.isEmpty then db
  else txn_commit (add_all (exec_delete_event db event_ticker.toUpper) ranking)

/-- The two points at which `save_rankings` can fail after the delete has
executed but before the commit. -/
inductive FailPoint where
  | afterDelete
  | afterInsert

/-- Source: `save_rankings` when a failure strikes at `fp`: the statements executed
so far are rolled back instead of committed. -/
def save_rankings_failed (db : RankDB) (ranking : List RankRow) (event_ticker : String)
    (fp : FailPoint) : RankDB :=
  if ranking.isEmpty then db
  else
    match fp with
    | .afterDelete => txn_rollback (exec_delete_event db event_ticker.toUpper)
    | .afterInsert => txn_rollback (add_all (exec_delete_event db event_ticker.toUpper) ranking)

/-! ## Read-side history cache (`main.py`: `load_cached_history`,
`get_kalshi_history_endpoint`) -/

/-- One point of the cached history payload. -/
structure HistoryPoint where
  team_name : String
  timestamp : ℤ
  probability : ℚ := 0
  volume : ℤ := 0
deriving DecidableEq

/-- The JSON document stored in the history cache file (`cached_at` as an
epoch instant). -/
structure CachedHistory where
  event_ticker : String
  teams : List String
  history : List HistoryPoint
  cached_at : ℤ
deriving DecidableEq

/-- Source: `CACHE_MAX_AGE_HOURS = 6`. -/
def CACHE_MAX_AGE_HOURS : ℚ := 6

/-- Source: `load_cached_history`: `None` when the cache file does not exist, and
`None` again when `age_hours > CACHE_MAX_AGE_HOURS`; otherwise the cached
document. -/
def load_cached_history (cacheFile : Option CachedHistory) (now : ℤ) :
    Option CachedHistory :=
  match cacheFile with
  | none => none
  | some c =>
    if ((now - c.cached_at : ℤ) : ℚ) / 3600 > CACHE_MAX_AGE_HOURS then none
    else some c

/-- A response of the `/api/kalshi-history` endpoint: a JSON payload (with
its `from_cache` flag and whether a stale-cache `warning` key is attached),
or an HTTP 502 error. -/
inductive HistoryResponse where
  | payload (event_ticker : String) (teams : List String) (history : List HistoryPoint)
      (from_cache : Bool) (stale_warning : Bool)
  | error502
deriving DecidableEq

/-- Source: `get_kalshi_history_endpoint`.  `upstream` is the outcome of the
`get_kalshi_history` fetch (an `Except.error` is a `requests.RequestException`).
Control flow of the source: (1) unless `force_refresh`, a fresh cache whose
event ticker matches and that holds at least `top_n_teams` teams is served
filtered by team and `cutoff_ts`; (2) otherwise fetch fresh data, returning
it filtered by `cutoff_ts`; (3) on a `RequestException`, re-load the cache
and serve it unfiltered with a staleness warning when `load_cached_history`
yields a document, else fail with 502.  (The cache-file write of the success
path does not affect the response and is not modelled.) -/
def get_kalshi_history_endpoint (cacheFile : Option CachedHistory) (now : ℤ)
    (upstream : Except Unit (List String × List HistoryPoint))
    (event_ticker : String) (days_back : ℤ) (top_n_teams : ℕ)
    (force_refresh : Bool) : HistoryResponse :=
  let cutoff_ts := now - days_back * 86400
  let cacheHit : Option HistoryResponse :=
    if force_refresh then none
    else
      match load_cached_history cacheFile now with
      | some c =>
        if c.event_ticker = event_ticker.toUpper ∧ top_n_teams ≤ c.teams.length then
          some (.payload c.event_ticker (c.teams.take top_n_teams)
            (c.history.filter fun hp =>
              decide (hp.team_name ∈ c.teams.take top_n_teams) &&
                decide (cutoff_ts ≤ hp.timestamp))
            true false)
        else none
      | none => none
  match cacheHit with
  | some resp => resp
  | none =>
    match upstream with
    | .ok (teams, hist) =>
      .payload event_ticker.toUpper teams
        (hist.filter fun hp => decide (cutoff_ts ≤ hp.timestamp)) false false
    | .error _ =>
      match load_cached_history cacheFile now with
      | some c => .payload c.event_ticker c.teams c.history true true
      | none => .error502

/-! ## Theorems -/

/-- Evaluation of the lifecycle scenario (open `T0 = 0`, close `T0 + 10` days
`= 864000` s, now `T0 + 9` days `= 777600` s) through the granularity chain
configured by `build_times_df`: `lifecycle_pct = 0.9` → phase `late` →
phase granularity 1; `ttc = 1` day → ttc granularity 1; provisional 1;
`days_since_open = 9 > 3` widens to 60, and then `9 > 7` (the hour cap
`max_days_hour = 7` passed by `build_times_df`) widens again to 1440. -/
lemma granularity_scenario_eval : build_times_granularity 0 864000 777600 = 1440 := by
  have h1 : lifecycle_pct 0 864000 777600 = 9 / 10 := by
    norm_num [lifecycle_pct, clip01, min_def, max_def]
  have h2 : phase (9 / 10) = "late" := by
    norm_num [phase]
  have h3 : gran_from_ttc ((864000 : ℚ) - 777600) = 1 := by
    norm_num [gran_from_ttc]
  have h5 : granularity_final (9 / 10) ((864000 : ℚ) - 777600) = 1 := by
    rw [granularity_final, h2, h3]; decide
  have h4 : days_since_open 0 777600 = 9 := by
    norm_num [days_since_open]
  have h6 : granularity_span_cap 3 7 1 9 = 1440 := by
    norm_num [granularity_span_cap]
  rw [build_times_granularity, h1, h4, h5, h6]

/-- C3, counterexample: on the claimed scenario (open `T0`, close
`T0 + 10 days`, now `T0 + 9 days`) the granularity chain configured by
`build_times_df` does not produce 60. -/
theorem build_times_scenario_not_60 : build_times_granularity 0 864000 777600 ≠ 60 := by
  rw [granularity_scenario_eval]; decide

/-- C3, amended: on that scenario the final granularity is 1440 — the span
cap first widens the provisional 1-minute choice to 60
(`days_since_open = 9 > max_days_minute = 3`), and the sequential hour cap
then widens that 60 to 1440 (`9 > max_days_hour = 7` as passed by
`build_times_df`). -/
theorem build_times_scenario_1440 : build_times_granularity 0 864000 777600 = 1440 :=
  granularity_scenario_eval

/-- C4, counterexample: `KalshiClient.get_event` does not retry a throttling
response.  Against a server that answers 429 on the first request and would
succeed on any later one, `get_event` fails with the 429 after exactly one
attempt and performs no backoff sleep — under the claim it would have
retried and returned the success payload. -/
theorem get_event_no_retry_counterexample :
    get_event (fun n => if n = 0 then KalshiResponse.status429 else KalshiResponse.ok ()) =
      ⟨Except.error 429, 1, []⟩ := rfl

/-- C4, amended: a throttling (429) response to the event-metadata fetch is
not retried at all: `get_event` raises on the first attempt (one request,
no backoff sleeps), which aborts the whole run, since `run` has no handler. -/
theorem get_event_throttle_fatal {α : Type} (server : ℕ → KalshiResponse α)
    (h : server 0 = KalshiResponse.status429) :
    get_event server = ⟨Except.error 429, 1, []⟩ := by
  simp only [get_event, h]

/-- Witness for `get_event_throttle_fatal` at the constant-429 server. -/
theorem get_event_throttle_fatal_witness :
    get_event (fun _ => (KalshiResponse.status429 : KalshiResponse Unit)) =
      ⟨Except.error 429, 1, []⟩ :=
  get_event_throttle_fatal _ rfl

/-- Source: `mid_from` yields null whenever the bid side is missing. -/
lemma mid_from_none_left (a : Option ℚ) : mid_from none a = none := by
  cases a <;> rfl

/-- Source: `mid_from` yields null whenever the ask side is missing. -/
lemma mid_from_none_right (b : Option ℚ) : mid_from b none = none := by
  cases b <;> rfl

/-- Source: `spread_from` yields null whenever the bid side is missing. -/
lemma spread_from_none_left (a : Option ℚ) : spread_from none a = none := by
  cases a <;> rfl

/-- Source: `spread_from` yields null whenever the ask side is missing. -/
lemma spread_from_none_right (b : Option ℚ) : spread_from b none = none := by
  cases b <;> rfl

/-- C6: for every raw candlestick period, when both `yes_bid_close` and
`yes_ask_close` are present the normalizer sets
`mid_cents = (yes_bid_close + yes_ask_close) / 2` and
`spread_cents = yes_ask_close - yes_bid_close`, and whenever either side is
missing it sets both derived metrics to null — never zero or a partial
value. -/
theorem normalizer_mid_spread (r : RawPeriod) :
    (∀ b a : ℚ, (normalize_record r).yes_bid_close = some b →
      (normalize_record r).yes_ask_close = some a →
      (normalize_record r).mid_cents = some ((b + a) / 2) ∧
        (normalize_record r).spread_cents = some (a - b)) ∧
    ((normalize_record r).yes_bid_close = none ∨
        (normalize_record r).yes_ask_close = none →
      (normalize_record r).mid_cents = none ∧
        (normalize_record r).spread_cents = none) := by
  constructor
  · intro b a hb ha
    simp only [normalize_record] at hb ha ⊢
    rw [hb, ha]
    exact ⟨rfl, rfl⟩
  · intro h
    simp only [normalize_record] at h ⊢
    rcases h with h | h
    · rw [h]
      exact ⟨mid_from_none_left _, spread_from_none_left _⟩
    · rw [h]
      exact ⟨mid_from_none_right _, spread_from_none_right _⟩

/-- A concrete raw period with bid close 10 and ask close 20. -/
def sample_period : RawPeriod where
  end_period_ts := 0
  yes_bid := some { close := some 10 }
  yes_ask := some { close := some 20 }

/-- Witness for `normalizer_mid_spread`: a period with bid close 10 and ask
close 20 gets `mid_cents = 15` and `spread_cents = 10`. -/
theorem normalizer_mid_spread_witness :
    (normalize_record sample_period).mid_cents = some 15 ∧
      (normalize_record sample_period).spread_cents = some 10 := by
  have h := (normalizer_mid_spread sample_period).1 10 20 rfl rfl
  refine ⟨h.1.trans ?_, h.2.trans ?_⟩ <;> norm_num

/-- C10: when the computed ranking set is empty, `save_rankings` returns
before executing the delete or any insert — the database (in particular
every previously committed snapshot row) is left exactly as it was, on the
success path and at every failure point alike. -/
theorem save_rankings_empty_frame (db : RankDB) (event_ticker : String) (fp : FailPoint) :
    save_rankings_ok db [] event_ticker = db ∧
      save_rankings_failed db [] event_ticker fp = db :=
  ⟨rfl, rfl⟩

/-- A cache document that is 7 hours old at the instant `now = 25200`. -/
def stale_cache : CachedHistory where
  event_ticker := "KXMENWORLDCUP-26"
  teams := ["Brazil"]
  history := []
  cached_at := 0

/-- C5, counterexample: the upstream fetch fails with a request error and a
cache file with a last-known payload exists, yet the endpoint answers 502:
the fallback re-runs `load_cached_history`, which discards any cache older
than `CACHE_MAX_AGE_HOURS` (here 7 hours old), so the cached payload is not
served — the claim's "regardless of the cached payload's age" fails. -/
theorem history_stale_cache_counterexample :
    get_kalshi_history_endpoint (some stale_cache) 25200 (Except.error ())
        "kxmenworldcup-26" 30 10 false = HistoryResponse.error502 ∧
      (some stale_cache).isSome = true := by
  have hgt : ((25200 : ℚ) - ((stale_cache.cached_at : ℤ) : ℚ)) / 3600 > CACHE_MAX_AGE_HOURS := by
    norm_num [stale_cache, CACHE_MAX_AGE_HOURS]
  have hstale : load_cached_history (some stale_cache) 25200 = none := by
    simp [load_cached_history, hgt]
  exact ⟨by simp [get_kalshi_history_endpoint, hstale], rfl⟩

/-- C5, amended: when the upstream fetch fails with a request error, the
endpoint serves the last-known cached payload with a staleness warning only
if the cache file is no older than `CACHE_MAX_AGE_HOURS` (6 hours); an older
cache file is discarded by `load_cached_history` and the request fails with
502 (shown at `force_refresh = true`, where the fetch is always attempted). -/
theorem history_fallback_fresh_cache (c : CachedHistory) (now : ℤ) (event_ticker : String)
    (days_back : ℤ) (top_n_teams : ℕ)
    (hfresh : ((now - c.cached_at : ℤ) : ℚ) / 3600 ≤ CACHE_MAX_AGE_HOURS) :
    get_kalshi_history_endpoint (some c) now (Except.error ())
        event_ticker days_back top_n_teams true =
      HistoryResponse.payload c.event_ticker c.teams c.history true true := by
  have hfresh2 : ((now : ℚ) - ((c.cached_at : ℤ) : ℚ)) / 3600 ≤ CACHE_MAX_AGE_HOURS := by
    push_cast at hfresh
    exact hfresh
  have hload : load_cached_history (some c) now = some c := by
    simp [load_cached_history, not_lt.mpr hfresh2]
  simp [get_kalshi_history_endpoint, hload]

/-- A cache document that is 1 hour old at the instant `now = 3600`. -/
def fresh_cache : CachedHistory where
  event_ticker := "KXMENWORLDCUP-26"
  teams := ["Brazil", "France"]
  history := [⟨"Brazil", 100, 50, 3⟩]
  cached_at := 0

/-- Witness for `history_fallback_fresh_cache`: a 1-hour-old cache is served
with the staleness warning when the upstream fetch fails. -/
theorem history_fallback_fresh_cache_witness :
    get_kalshi_history_endpoint (some fresh_cache) 3600 (Except.error ())
        "kxmenworldcup-26" 30 10 true =
      HistoryResponse.payload "KXMENWORLDCUP-26" ["Brazil", "France"]
        [⟨"Brazil", 100, 50, 3⟩] true true :=
  history_fallback_fresh_cache fresh_cache 3600 "kxmenworldcup-26" 30 10
    (by norm_num [fresh_cache, CACHE_MAX_AGE_HOURS])

/-- A conflicting insert leaves the table unchanged. -/
lemma insert_chance_of_keyMem {table : List ChanceRow} {r : ChanceRow}
    (h : keyMem table r.market_ticker r.end_period_ts) :
    insert_chance table r = table := by
  unfold insert_chance
  rw [if_pos h]

/-- Inserting preserves the presence of any natural key. -/
lemma keyMem_insert_chance {table : List ChanceRow} {mt : String} {ts : ℤ}
    (r : ChanceRow) (h : keyMem table mt ts) :
    keyMem (insert_chance table r) mt ts := by
  unfold insert_chance
  split_ifs with hc
  · exact h
  · obtain ⟨x, hx, hk⟩ := h
    exact ⟨x, List.mem_append_left _ hx, hk⟩

/-- After inserting `r`, the key of `r` is present. -/
lemma keyMem_insert_self (table : List ChanceRow) (r : ChanceRow) :
    keyMem (insert_chance table r) r.market_ticker r.end_period_ts := by
  unfold insert_chance
  split_ifs with hc
  · exact hc
  · exact ⟨r, List.mem_append_right _ (List.mem_singleton_self r), rfl, rfl⟩

/-- Source: `save_chances` preserves the presence of any natural key. -/
lemma keyMem_save_chances (table : List ChanceRow) (rows : List ChanceRow)
    (mt : String) (ts : ℤ) (h : keyMem table mt ts) :
    keyMem (save_chances table rows) mt ts := by
  induction rows generalizing table with
  | nil => exact h
  | cons a rest ih =>
    simp only [save_chances, List.foldl_cons] at ih ⊢
    exact ih _ (keyMem_insert_chance a h)

/-- After a `save_chances` run, every inserted row's natural key is present. -/
lemma keyMem_save_chances_mem (table : List ChanceRow) (rows : List ChanceRow) :
    ∀ r ∈ rows, keyMem (save_chances table rows) r.market_ticker r.end_period_ts := by
  induction rows generalizing table with
  | nil => intro r hr; cases hr
  | cons a rest ih =>
    intro r hr
    simp only [save_chances, List.foldl_cons]
    rcases List.mem_cons.mp hr with rfl | hr2
    · exact keyMem_save_chances _ rest _ _ (keyMem_insert_self table r)
    · exact ih _ r hr2

/-- A `save_chances` run whose rows all conflict is a no-op. -/
lemma save_chances_no_new (table : List ChanceRow) (rows : List ChanceRow)
    (h : ∀ r ∈ rows, keyMem table r.market_ticker r.end_period_ts) :
    save_chances table rows = table := by
  induction rows with
  | nil => rfl
  | cons a rest ih =>
    simp only [save_chances, List.foldl_cons] at ih ⊢
    rw [insert_chance_of_keyMem (h a (List.mem_cons_self a rest))]
    exact ih fun r hr => h r (List.mem_cons_of_mem a hr)

/-- C1: the time-series upsert is idempotent.  Inserting a row whose
`(market_ticker, end_period_ts)` natural key is already stored is a no-op
(no duplicate, no error), and therefore re-running `save_chances` with the
identical input rows leaves the `kalshi_team_chances` table exactly as the
first run left it. -/
theorem save_chances_idempotent (table rows : List ChanceRow) (r : ChanceRow)
    (h : keyMem table r.market_ticker r.end_period_ts) :
    insert_chance table r = table ∧
      save_chances (save_chances table rows) rows = save_chances table rows :=
  ⟨insert_chance_of_keyMem h,
    save_chances_no_new _ _ (keyMem_save_chances_mem table rows)⟩

/-- A stored time-series row. -/
def chance_row : ChanceRow where
  market_ticker := "KXMENWORLDCUP-26-BRA"
  end_period_ts := 1700000000

/-- A re-fetched row with the same natural key but different payload. -/
def chance_row_dup : ChanceRow where
  team_name := "Brazil"
  market_ticker := "KXMENWORLDCUP-26-BRA"
  end_period_ts := 1700000000

/-- Witness for `save_chances_idempotent` on a one-row table. -/
theorem save_chances_idempotent_witness :
    insert_chance [chance_row] chance_row_dup = [chance_row] ∧
      save_chances (save_chances [chance_row] [chance_row_dup]) [chance_row_dup] =
        save_chances [chance_row] [chance_row_dup] :=
  save_chances_idempotent [chance_row] [chance_row_dup] chance_row_dup (by decide)

/-- C2: ranking-snapshot replacement is all-or-nothing.  The delete and the
insert run inside one session transaction with a single final commit, so a
failure after the delete (before or after the insert) but before the commit
rolls back and leaves the previously committed snapshot rows readable —
never an empty or mixed state; and a successful run commits exactly the old
table with the target event's rows replaced by the new ranking. -/
theorem save_rankings_atomic (db : RankDB) (ranking : List RankRow) (event_ticker : String)
    (fp : FailPoint) (hpending : db.pending = none) (hne : ranking ≠ []) :
    (save_rankings_failed db ranking event_ticker fp).committed = db.committed ∧
      (save_rankings_ok db ranking event_ticker).committed =
        db.committed.filter (fun r => r.event_ticker != event_ticker.toUpper) ++ ranking := by
  have hempty : ranking.isEmpty = false := by
    simpa [List.isEmpty_iff] using hne
  constructor
  · cases fp <;>
      simp [save_rankings_failed, hempty, txn_rollback, exec_delete_event, add_all]
  · simp [save_rankings_ok, hempty, txn_commit, add_all, exec_delete_event,
      txn_working, hpending]

/-- A previously committed snapshot row for the target event. -/
def old_rank_row : RankRow where
  team_name := "Brazil"
  event_ticker := "KXMENWORLDCUP-26"
  rank := 1

/-- A newly computed snapshot row. -/
def new_rank_row : RankRow where
  team_name := "France"
  event_ticker := "KXMENWORLDCUP-26"
  rank := 1

/-- Witness for `save_rankings_atomic`: a failure after the delete leaves
the old snapshot committed, and a successful run replaces it. -/
theorem save_rankings_atomic_witness :
    (save_rankings_failed ⟨[old_rank_row], none⟩ [new_rank_row] "kxmenworldcup-26"
        FailPoint.afterDelete).committed = (⟨[old_rank_row], none⟩ : RankDB).committed ∧
      (save_rankings_ok ⟨[old_rank_row], none⟩ [new_rank_row] "kxmenworldcup-26").committed =
        List.filter (fun r => r.event_ticker != "kxmenworldcup-26".toUpper) [old_rank_row]
          ++ [new_rank_row] :=
  save_rankings_atomic ⟨[old_rank_row], none⟩ [new_rank_row] "kxmenworldcup-26"
    FailPoint.afterDelete rfl (List.cons_ne_nil _ _)

/-- The phase-based granularity only takes the three configured values. -/
lemma phase_to_gran_valid (p : String) : ValidGran (phase_to_gran p) := by
  unfold phase_to_gran ValidGran
  split_ifs <;> simp

/-- The time-to-close granularity only takes the three configured values. -/
lemma gran_from_ttc_valid (ttc : ℚ) : ValidGran (gran_from_ttc ttc) := by
  unfold gran_from_ttc ValidGran
  split_ifs <;> simp

/-- The set of valid granularities is closed under `min`. -/
lemma validGran_min {a b : ℕ} (ha : ValidGran a) (hb : ValidGran b) : ValidGran (min a b) := by
  rcases ha with rfl | rfl | rfl <;> rcases hb with rfl | rfl | rfl <;>
    simp [ValidGran, min_def]

/-- The provisional granularity only takes the three configured values. -/
lemma granularity_final_valid (pct ttc : ℚ) : ValidGran (granularity_final pct ttc) :=
  validGran_min (phase_to_gran_valid _) (gran_from_ttc_valid _)

/-- Span cap on a 1-minute provisional choice: widen to 60 beyond the
minute cap, and further to 1440 beyond the hour cap. -/
lemma span_cap_at_1 (m h d : ℚ) :
    granularity_span_cap m h 1 d = if d > m then (if d > h then 1440 else 60) else 1 := by
  by_cases hdm : d > m <;> by_cases hdh : d > h <;>
    simp [granularity_span_cap, hdm, hdh]

/-- Span cap on an hourly provisional choice: widen to 1440 beyond the hour
cap. -/
lemma span_cap_at_60 (m h d : ℚ) :
    granularity_span_cap m h 60 d = if d > h then 1440 else 60 := by
  by_cases hdh : d > h <;> simp [granularity_span_cap, hdh]

/-- Span cap never changes a daily provisional choice. -/
lemma span_cap_at_1440 (m h d : ℚ) : granularity_span_cap m h 1440 d = 1440 := by
  simp [granularity_span_cap]

/-- The span-capped granularity stays in `{1, 60, 1440}`. -/
lemma span_cap_valid (m h d : ℚ) {g : ℕ} (hg : ValidGran g) :
    ValidGran (granularity_span_cap m h g d) := by
  rcases hg with rfl | rfl | rfl
  · rw [span_cap_at_1]
    split_ifs <;> simp [ValidGran]
  · rw [span_cap_at_60]
    split_ifs <;> simp [ValidGran]
  · rw [span_cap_at_1440]
    simp [ValidGran]

/-- For a fixed provisional granularity, the span-capped granularity is
monotone in `days_since_open`. -/
lemma span_cap_mono (m h : ℚ) {g : ℕ} (hg : ValidGran g) {d d' : ℚ} (hdd : d ≤ d') :
    granularity_span_cap m h g d ≤ granularity_span_cap m h g d' := by
  rcases hg with rfl | rfl | rfl
  · rw [span_cap_at_1, span_cap_at_1]
    by_cases h1 : d > m
    · have h1a : d' > m := lt_of_lt_of_le h1 hdd
      rw [if_pos h1, if_pos h1a]
      by_cases h2 : d > h
      · rw [if_pos h2, if_pos (lt_of_lt_of_le h2 hdd)]
      · rw [if_neg h2]
        split_ifs <;> norm_num
    · rw [if_neg h1]
      split_ifs <;> norm_num
  · rw [span_cap_at_60, span_cap_at_60]
    by_cases h2 : d > h
    · rw [if_pos h2, if_pos (lt_of_lt_of_le h2 hdd)]
    · rw [if_neg h2]
      split_ifs <;> norm_num
  · rw [span_cap_at_1440, span_cap_at_1440]

/-- C8: for every market input, the Granularity Selector's final span-capped
output is one of `{1, 60, 1440}`, and — holding the phase-based and
time-to-close-based provisional granularities (hence `granularity_final`)
fixed — it is monotone non-decreasing in `days_since_open`, for any cap
thresholds. -/
theorem granularity_selector_valid_mono
    (pct ttc max_days_minute max_days_hour d d' : ℚ) (hdd : d ≤ d') :
    ValidGran (granularity_span_cap max_days_minute max_days_hour
        (granularity_final pct ttc) d) ∧
      granularity_span_cap max_days_minute max_days_hour (granularity_final pct ttc) d ≤
        granularity_span_cap max_days_minute max_days_hour (granularity_final pct ttc) d' :=
  ⟨span_cap_valid _ _ _ (granularity_final_valid pct ttc),
    span_cap_mono _ _ (granularity_final_valid pct ttc) hdd⟩

/-- Witness for `granularity_selector_valid_mono` at a mid-lifecycle market
with the `build_times_df` thresholds and `days_since_open` 1 ≤ 2. -/
theorem granularity_selector_valid_mono_witness :
    ValidGran (granularity_span_cap 3 7 (granularity_final (1 / 2) 0) 1) ∧
      granularity_span_cap 3 7 (granularity_final (1 / 2) 0) 1 ≤
        granularity_span_cap 3 7 (granularity_final (1 / 2) 0) 2 :=
  granularity_selector_valid_mono (1 / 2) 0 3 7 1 2 (by norm_num)

/-- Exhausting all 10 attempts on consecutive 429s yields the empty
candlestick payload and the exhaustion warning. -/
lemma get_candlesticks_go_exhaust (server : ℕ → KalshiResponse (List RawPeriod))
    (h : ∀ n, server n = KalshiResponse.status429) :
    ∀ fuel idx delay acc,
      (get_candlesticks_go server fuel idx delay acc).result = Except.ok [] ∧
        (get_candlesticks_go server fuel idx delay acc).exhausted_warning = true := by
  intro fuel
  induction fuel with
  | zero => exact fun idx delay acc => ⟨rfl, rfl⟩
  | succ n ih =>
    intro idx delay acc
    simp only [get_candlesticks_go, h idx]
    exact ih _ _ _

/-- Source: `get_candlesticks` against a permanently throttling server. -/
lemma get_candlesticks_exhaust (server : ℕ → KalshiResponse (List RawPeriod))
    (h : ∀ n, server n = KalshiResponse.status429) :
    (get_candlesticks server).result = Except.ok [] ∧
      (get_candlesticks server).exhausted_warning = true :=
  get_candlesticks_go_exhaust server h 10 0 5 []

/-- A market whose candlestick fetch comes back empty is skipped by the
per-market loop and changes nothing about the loop's result. -/
lemma fetch_all_skip (server : String → ℕ → KalshiResponse (List RawPeriod))
    (bad : MarketTimes)
    (h : (get_candlesticks (server bad.ticker)).result = Except.ok []) :
    ∀ pre post : List MarketTimes,
      fetch_all_candlesticks server (pre ++ bad :: post) =
        fetch_all_candlesticks server (pre ++ post) := by
  intro pre
  induction pre with
  | nil =>
    intro post
    simp only [List.nil_append, fetch_all_candlesticks, h]
    cases hrest : fetch_all_candlesticks server post <;> simp [hrest]
  | cons m pre2 ih =>
    intro post
    simp only [List.cons_append, fetch_all_candlesticks, List.append_eq]
    rw [ih post]

/-- C9: exhausting throttling retries on a candlestick fetch is a soft
failure: `get_candlesticks` returns the empty period list for that market
together with the logged exhaustion warning, the per-market loop of
`fetch_all_candlesticks` skips that market, and the run's result is exactly
the result of processing the remaining markets. -/
theorem candlestick_exhaustion_soft (server : String → ℕ → KalshiResponse (List RawPeriod))
    (bad : MarketTimes) (pre post : List MarketTimes)
    (h : ∀ n, server bad.ticker n = KalshiResponse.status429) :
    (get_candlesticks (server bad.ticker)).result = Except.ok [] ∧
      (get_candlesticks (server bad.ticker)).exhausted_warning = true ∧
      fetch_all_candlesticks server (pre ++ bad :: post) =
        fetch_all_candlesticks server (pre ++ post) := by
  obtain ⟨h1, h2⟩ := get_candlesticks_exhaust _ h
  exact ⟨h1, h2, fetch_all_skip server bad h1 pre post⟩

/-- A market whose server only ever throttles. -/
def bad_market : MarketTimes where
  team_name := "Brazil"
  ticker := "KXMENWORLDCUP-26-BRA"

/-- Witness for `candlestick_exhaustion_soft`: with a constant-429 server,
the single bad market degrades to the empty fetch result. -/
theorem candlestick_exhaustion_soft_witness :
    (get_candlesticks (fun _ => KalshiResponse.status429)).result = Except.ok [] ∧
      (get_candlesticks (fun _ => KalshiResponse.status429)).exhausted_warning = true ∧
      fetch_all_candlesticks (fun _ _ => KalshiResponse.status429) [bad_market] =
        fetch_all_candlesticks (fun _ _ => KalshiResponse.status429) [] :=
  candlestick_exhaustion_soft (fun _ _ => KalshiResponse.status429) bad_market [] []
    (fun _ => rfl)

/-- The descending-average comparison is reflexive. -/
lemma avgDominates_refl (a : Option ℚ) : avgDominates a a = true := by
  cases a <;> simp [avgDominates]

/-- The descending-average comparison is total. -/
lemma avgDominates_total (a b : Option ℚ) :
    avgDominates a b = true ∨ avgDominates b a = true := by
  cases a with
  | none => cases b <;> simp [avgDominates]
  | some x =>
    cases b with
    | none => simp [avgDominates]
    | some y => simpa [avgDominates] using le_total y x

/-- The descending-average comparison is transitive. -/
lemma avgDominates_trans {a b c : Option ℚ} (h1 : avgDominates a b = true)
    (h2 : avgDominates b c = true) : avgDominates a c = true := by
  cases a with
  | none =>
    cases b with
    | none => cases c <;> simp_all [avgDominates]
    | some y => simp [avgDominates] at h1
  | some x =>
    cases b with
    | none =>
      cases c with
      | none => simp [avgDominates]
      | some z => simp [avgDominates] at h2
    | some y =>
      cases c with
      | none => simp [avgDominates]
      | some z =>
        simp only [avgDominates, decide_eq_true_eq] at h1 h2 ⊢
        exact le_trans h2 h1

instance : IsTotal (String × Option ℚ) rankOrder :=
  ⟨fun g1 g2 => avgDominates_total g1.2 g2.2⟩

instance : IsTrans (String × Option ℚ) rankOrder :=
  ⟨fun _ _ _ => avgDominates_trans⟩

/-- The assigned ranks are consecutive starting from the initial index. -/
lemma assignRanks_map_rank (i : ℕ) (l : List (String × Option ℚ)) :
    (assignRanks i l).map RankingEntry.rank = List.range' i l.length := by
  induction l generalizing i with
  | nil => rfl
  | cons g gs ih => simp [assignRanks, List.range'_succ, ih]

/-- Every rank assigned from index `i` on is at least `i`. -/
lemma assignRanks_rank_ge {i : ℕ} {l : List (String × Option ℚ)} {e : RankingEntry}
    (h : e ∈ assignRanks i l) : i ≤ e.rank := by
  induction l generalizing i with
  | nil => cases h
  | cons g gs ih =>
    rcases List.mem_cons.mp h with rfl | h2
    · simp
    · exact le_trans (Nat.le_succ i) (ih h2)

/-- Every ranking entry corresponds to one of the aggregated group rows. -/
lemma assignRanks_mem_pair {i : ℕ} {l : List (String × Option ℚ)} {e : RankingEntry}
    (h : e ∈ assignRanks i l) : (e.team_name, e.avg_chance) ∈ l := by
  induction l generalizing i with
  | nil => cases h
  | cons g gs ih =>
    rcases List.mem_cons.mp h with rfl | h2
    · simp
    · exact List.mem_cons_of_mem _ (ih h2)

/-- On a descending-sorted group list, the rank-1 entry's average dominates
every group's average. -/
lemma assignRanks_rank_one_dominates {l : List (String × Option ℚ)}
    (hs : List.Sorted rankOrder l) {e : RankingEntry}
    (he : e ∈ assignRanks 1 l) (hr : e.rank = 1) :
    ∀ p ∈ l, avgDominates e.avg_chance p.2 = true := by
  cases l with
  | nil => cases he
  | cons g gs =>
    rcases List.mem_cons.mp he with rfl | h2
    · intro p hp
      rcases List.mem_cons.mp hp with rfl | hp2
      · exact avgDominates_refl _
      · exact List.rel_of_sorted_cons hs p hp2
    · exfalso
      have h3 := assignRanks_rank_ge h2
      omega

/-- C7: `build_ranking` groups by competitor name, aggregates the null-safe
mean of `yes_bid_open` rounded to 2 decimals, and sorts descending by that
mean; for every input whose N competitors have defined, pairwise distinct
means, the assigned ranks are exactly `1, ..., N` (N the number of distinct
competitor names), and the rank-1 entry's mean dominates every competitor's
mean. -/
theorem build_ranking_dense (df : List TaggedRow)
    (hdef : ∀ n ∈ groupNames df, avg_chance df n ≠ none)
    (hdist : ∀ n1 ∈ groupNames df, ∀ n2 ∈ groupNames df,
      n1 ≠ n2 → avg_chance df n1 ≠ avg_chance df n2) :
    ((build_ranking df).map RankingEntry.rank) = List.range' 1 (groupNames df).length ∧
      ∀ e ∈ build_ranking df, e.rank = 1 →
        ∀ e2 ∈ build_ranking df, avgDominates e.avg_chance e2.avg_chance = true := by
  by_cases hdf : df.isEmpty
  · rw [List.isEmpty_iff] at hdf
    subst hdf
    exact ⟨rfl, by intro e he; cases he⟩
  · have hbr : build_ranking df =
        assignRanks 1 (List.insertionSort rankOrder
          ((groupNames df).map fun n => (n, avg_chance df n))) := by
      rw [build_ranking, if_neg hdf]
    have hsorted : List.Sorted rankOrder (List.insertionSort rankOrder
        ((groupNames df).map fun n => (n, avg_chance df n))) :=
      List.sorted_insertionSort rankOrder _
    constructor
    · rw [hbr, assignRanks_map_rank]
      congr 1
      simp
    · intro e he hr e2 he2
      rw [hbr] at he he2
      have hdom := assignRanks_rank_one_dominates hsorted he hr
      exact hdom _ (assignRanks_mem_pair he2)

/-- A raw period whose bid opened at 10. -/
def raw_open_10 : RawPeriod where
  end_period_ts := 0
  yes_bid := some { open_ := some 10 }

/-- A raw period whose bid opened at 20. -/
def raw_open_20 : RawPeriod where
  end_period_ts := 60
  yes_bid := some { open_ := some 20 }

/-- Two rows of one competitor, with defined bid opens. -/
def sample_df : List TaggedRow :=
  [{ team_name := "Brazil", row := normalize_record raw_open_10 },
   { team_name := "Brazil", row := normalize_record raw_open_20 }]

/-- Witness for `build_ranking_dense` on `sample_df` (one competitor, mean
defined): the rank list is exactly `[1]` and rank 1 dominates. -/
theorem build_ranking_dense_witness :
    ((build_ranking sample_df).map RankingEntry.rank) =
        List.range' 1 (groupNames sample_df).length ∧
      ∀ e ∈ build_ranking sample_df, e.rank = 1 →
        ∀ e2 ∈ build_ranking sample_df,
          avgDominates e.avg_chance e2.avg_chance = true := by
  have hg : groupNames sample_df = ["Brazil"] := rfl
  refine build_ranking_dense sample_df (by decide) ?_
  intro n1 h1 n2 h2 hne
  rw [hg] at h1 h2
  rcases List.mem_singleton.mp h1 with rfl
  rcases List.mem_singleton.mp h2 with rfl
  exact absurd rfl hne

end StaticWorldcup
